import Mathlib

/-!
Verification of the realtime-data pipeline of pysolarcloud
(src/pysolarcloud/plants.py) and the capability check
(src/pysolarcloud/control.py), as a shallow embedding.

JSON string values are `String`, absent-or-null raw values are `Option`,
Python dict lookup over an association list built by successive insertion is
"last binding wins", and the transport collaborator is passed in as a function
from the request record to the decoded response body.  Python `float(s)` on
the plain decimal literals the vendor sends is modelled as an exact rational
parse.  The exception taxonomy of the spec is mapped onto the exceptions the
code actually raises: `UnknownMeasurePoint` is the `KeyError` escaping the
reverse-map lookup, `RemoteServiceError` is `PySolarCloudException(res)`.
-/

namespace PySolarCloud

/-- Python `str.isdigit()` on the ASCII payloads this client handles:
true when the string is nonempty and every character is a decimal digit. -/
def pyIsdigit (s : String) : Bool :=
  !s.isEmpty && s.toList.all Char.isDigit

/-- Numeric value of a list of decimal digit characters, most significant
first. -/
def digitsVal (l : List Char) : Nat :=
  l.foldl (fun a c => 10 * a + (c.toNat - 48)) 0

/-- Python `float(s)` on an unsigned plain decimal literal: digits with at
most one decimal point, at least one digit overall.  Returns the exact
rational value. -/
def parseUnsignedFloat (l : List Char) : Option ℚ :=
  match l.span (fun c => c != '.') with
  | (intPart, []) =>
    if !intPart.isEmpty && intPart.all Char.isDigit then
      some (digitsVal intPart : ℚ)
    else none
  | (intPart, _ :: fracPart) =>
    if (!intPart.isEmpty || !fracPart.isEmpty) && intPart.all Char.isDigit
        && fracPart.all Char.isDigit then
      some ((digitsVal intPart : ℚ) + (digitsVal fracPart : ℚ) / (10 : ℚ) ^ fracPart.length)
    else none

/-- Python `float(s)` restricted to plain decimal literals with an optional
sign.  The builtin accepts a broader grammar (exponents, infinities,
surrounding whitespace), none of which the vendor payloads in scope use. -/
def parseFloat (s : String) : Option ℚ :=
  match s.toList with
  | '-' :: rest => (parseUnsignedFloat rest).map (fun q => -q)
  | '+' :: rest => parseUnsignedFloat rest
  | l => parseUnsignedFloat l

/-- The static measure-point registry `Plants.measure_points`, in source
order.  Python dict literal with distinct keys: an association list. -/
def measure_points : List (String × String) := [
  ("83022", "daily_yield"),
  ("83024", "total_yield"),
  ("83033", "power"),
  ("83019", "power_fraction"),
  ("83006", "meter_daily_yield"),
  ("83020", "meter_total_yield"),
  ("83011", "meter_e_daily_consumption"),
  ("83021", "accumulative_power_consumption_by_meter"),
  ("83032", "meter_ac_power"),
  ("83007", "meter_pr"),
  ("83002", "inverter_ac_power"),
  ("83009", "inverter_daily_yield"),
  ("83004", "inverter_total_yield"),
  ("83012", "p_radiation_h"),
  ("83013", "daily_irradiation"),
  ("83023", "plant_pr"),
  ("83005", "daily_equivalent_hours"),
  ("83025", "plant_equivalent_hours"),
  ("83018", "daily_yield_theoretical"),
  ("83001", "inverter_ac_power_normalization"),
  ("83008", "daily_equivalent_hours_of_inverter"),
  ("83010", "inverter_pr"),
  ("83016", "plant_ambient_temperature"),
  ("83017", "plant_module_temperature"),
  ("83046", "pcs_total_active_power"),
  ("83052", "total_load_active_power"),
  ("83067", "total_active_power_of_pv"),
  ("83097", "daily_direct_energy_consumption"),
  ("83100", "total_direct_energy_consumption"),
  ("83102", "energy_purchased_today"),
  ("83105", "total_purchased_energy"),
  ("83106", "load_power"),
  ("83118", "daily_load_consumption"),
  ("83124", "total_load_consumption"),
  ("83119", "daily_feed_in_energy_pv"),
  ("83072", "feed_in_energy_today"),
  ("83075", "feed_in_energy_total"),
  ("83252", "battery_level_soc"),
  ("83129", "battery_soc"),
  ("83232", "total_field_soc"),
  ("83233", "total_field_maximum_rechargeable_power"),
  ("83234", "total_field_maximum_dischargeable_power"),
  ("83235", "total_field_chargeable_energy"),
  ("83236", "total_field_dischargeable_energy"),
  ("83237", "total_field_energy_storage_maximum_reactive_power"),
  ("83238", "total_field_energy_storage_active_power"),
  ("83239", "total_field_reactive_power"),
  ("83240", "total_field_power_factor"),
  ("83243", "daily_field_charge_capacity"),
  ("83241", "total_field_charge_capacity"),
  ("83244", "daily_field_discharge_capacity"),
  ("83242", "total_field_discharge_capacity"),
  ("83548", "total_number_of_charge_discharge"),
  ("83549", "grid_active_power"),
  ("83419", "daily_highest_inverter_power_inverter_installed_capacity"),
  ("83317", "power_forecast"),
  ("83318", "planned_es_charging_discharging_power"),
  ("83319", "planned_es_soc"),
  ("83320", "planned_charging_power"),
  ("83321", "planned_discharging_power"),
  ("83322", "ess_daily_charge_ems"),
  ("83324", "energy_storage_cumulative_charge"),
  ("83323", "ess_daily_discharge_ems"),
  ("83325", "cumulative_discharge"),
  ("83327", "energy_storage_remaining_charge"),
  ("83326", "energy_storage_active_power_ems"),
  ("83328", "grid_active_power_ems"),
  ("83329", "pv_active_power_ems"),
  ("83330", "load_active_power_ems"),
  ("83331", "daily_pv_yield_ems"),
  ("83332", "total_pv_yield"),
  ("83334", "energy_storage_soc_ems"),
  ("83335", "energy_storage_remaining_charge_ems")]

/-- `self.measure_points.get(i, i)`: the registered semantic code of a
numeric id, or the id itself when unregistered (the keys are distinct, so
first match equals Python dict lookup). -/
def codeOf (i : String) : String :=
  ((measure_points.find? (fun p => p.1 == i)).map (fun p => p.2)).getD i

/-- Lookup in `measure_points_map = {v: k for k, v in measure_points.items()}`
at a semantic name: the dict comprehension lets a later binding override an
earlier one on a duplicated value, hence last match; `none` is the `KeyError`
path. -/
def lookupRev (n : String) : Option String :=
  (measure_points.reverse.find? (fun p => p.2 == n)).map (fun p => p.1)

/-- One entry of the vendor point dictionary: `point_id` plus the optional
`point_unit` / `point_name` metadata fields read with `.get(_, None)`. -/
structure PointInfo where
  point_id : String
  point_unit : Option String
  point_name : Option String
deriving DecidableEq, Repr

/-- One element of `result_data.device_point_list`: the `ps_id` field plus
the remaining key/value fields of the flat per-plant record, a raw value
being a string or JSON null. -/
structure PlantRecord where
  ps_id : String
  fields : List (String × Option String)
deriving DecidableEq, Repr

/-- The decoded body of the realtime-data response.  `hasError` is the
presence of an `error` key at top level. -/
structure Response where
  hasError : Bool
  point_dict : List PointInfo
  device_point_list : List PlantRecord
deriving DecidableEq, Repr

/-- The failure taxonomy of the resolver, named as in the spec:
`unknownMeasurePoint` is the `KeyError` escaping the reverse-map lookup,
`remoteServiceError` is `PySolarCloudException(res)` wrapping the raw
response. -/
inductive PlantsError where
  | unknownMeasurePoint (name : String)
  | remoteServiceError (res : Response)
deriving DecidableEq, Repr

/-- The outbound request parameter set of `async_get_realtime_data`. -/
structure Request where
  ps_id_list : List String
  point_id_list : List String
  is_get_point_dict : String
deriving DecidableEq, Repr

/-- The value of a Reading: a parsed float (exact rational), the original
unparseable string, or null for an absent raw value. -/
inductive Value where
  | num (q : ℚ)
  | str (s : String)
  | null
deriving DecidableEq, Repr

/-- The dict built by `_format_measure_point`. -/
structure Reading where
  id : String
  code : String
  value : Value
  unit : Option String
  name : Option String
deriving DecidableEq, Repr

/-- Lookup in a Python dict built by inserting the bindings of an
association list in order: the last binding of a key wins. -/
def dictGet {α : Type} (l : List (String × α)) (k : String) : Option α :=
  (l.reverse.find? (fun p => p.1 == k)).map (fun p => p.2)

/-- `Plants._format_measure_point(point_id, point_value, point_dict)`:
float-coerce the raw value, resolve the semantic code through the registry,
and read unit and name from the point dictionary, `None` when absent. -/
def formatMeasurePoint (point_id : String) (point_value : Option String)
    (point_dict : List PointInfo) : Reading :=
  let v : Value :=
    match point_value with
    | none => Value.null
    | some s =>
      match parseFloat s with
      | some q => Value.num q
      | none => Value.str s
  let entry := point_dict.reverse.find? (fun p => p.point_id == point_id)
  { id := point_id,
    code := codeOf point_id,
    value := v,
    unit := entry.bind (fun e => e.point_unit),
    name := entry.bind (fun e => e.point_name) }

/-- The key test of the reshaping comprehension,
`k[0] == p and k[1:].isdigit()` (note `str.isdigit` is false on the empty
string): returns the digit suffix when the key matches. -/
def pointKeyId (k : String) : Option String :=
  match k.toList with
  | c :: rest =>
    if c == 'p' && !rest.isEmpty && rest.all Char.isDigit then
      some (String.mk rest)
    else none
  | [] => none

/-- The per-plant body of the reshaping loop: format every
prefix-plus-digits field and key the readings by their semantic code
(`data_as_dict`). -/
def reshapePlant (plant : PlantRecord) (point_dict : List PointInfo) :
    List (String × Reading) :=
  (plant.fields.filterMap (fun kv =>
    (pointKeyId kv.1).map (fun pid => formatMeasurePoint pid kv.2 point_dict))).map
    (fun d => (d.code, d))

/-- One element of the resolution comprehension
`[m if m.isdigit() else measure_points_map[m] for m in measure_points]`:
all-digit names pass through verbatim, others go through the reverse map,
and a missing name raises (the spec's `UnknownMeasurePoint`). -/
def resolveOne (m : String) : Except PlantsError String :=
  if pyIsdigit m then Except.ok m
  else
    match lookupRev m with
    | some k => Except.ok k
    | none => Except.error (PlantsError.unknownMeasurePoint m)

/-- The resolution comprehension itself: left to right, stopping at the
first name that raises. -/
def resolveList : List String → Except PlantsError (List String)
  | [] => Except.ok []
  | m :: rest =>
    match resolveOne m with
    | Except.error e => Except.error e
    | Except.ok k =>
      match resolveList rest with
      | Except.error e => Except.error e
      | Except.ok ks => Except.ok (k :: ks)

/-- Point selection: `None` selects every registered id
(`list(self.measure_points.keys())`), otherwise the names are resolved. -/
def resolvePoints : Option (List String) → Except PlantsError (List String)
  | none => Except.ok (measure_points.map (fun p => p.1))
  | some l => resolveList l

/-- Plant-input normalization: a single id is wrapped as a one-element
list, a list is kept as is, order preserved. -/
def normalizePlantId : String ⊕ List String → List String
  | Sum.inl s => [s]
  | Sum.inr l => l

/-- The result shape: plant id to (semantic code to Reading), both maps
modelled as insertion-ordered association lists read with `dictGet`. -/
abbrev RealtimeResult : Type := List (String × List (String × Reading))

/-- `Plants.async_get_realtime_data`.  The transport collaborator is a
function from the request record to the decoded body; the first component
of the result is the trace of outbound requests actually issued. -/
def async_get_realtime_data (plant_id : String ⊕ List String)
    (measurePoints : Option (List String)) (transport : Request → Response) :
    List Request × Except PlantsError RealtimeResult :=
  match resolvePoints measurePoints with
  | Except.error e => ([], Except.error e)
  | Except.ok ms =>
    let req : Request :=
      { ps_id_list := normalizePlantId plant_id,
        point_id_list := ms,
        is_get_point_dict := "1" }
    let res := transport req
    ([req],
      if res.hasError then
        Except.error (PlantsError.remoteServiceError res)
      else
        Except.ok (res.device_point_list.map
          (fun plant => (plant.ps_id, reshapePlant plant res.point_dict))))

/-- The decoded body of the `paramSettingCheck` response:
`result_code` read with `.get`, the outer `result_data.check_result`, and
the `check_result` string of each `dev_result_list` entry. -/
structure VerifyResponse where
  result_code : Option String
  check_result : String
  dev_result_list : List String
deriving DecidableEq, Repr

/-- What `Control.async_param_config_verification` raises:
`pySolarCloudException` for the final `raise`, `indexError` for
`dev_result_list[0]` on an empty list. -/
inductive ControlError where
  | pySolarCloudException
  | indexError
deriving DecidableEq, Repr

/-- `Control.async_param_config_verification` on a decoded body. -/
def async_param_config_verification (data : VerifyResponse) :
    Except ControlError Bool :=
  if data.result_code = some "1" ∧ data.check_result = "1" then
    match data.dev_result_list with
    | [] => Except.error ControlError.indexError
    | supported :: _ =>
      if supported = "1" then Except.ok true
      else if supported = "0" then Except.ok false
      else Except.error ControlError.pySolarCloudException
  else Except.error ControlError.pySolarCloudException

/-- Evaluation of the float parser on the literal "123.4", in the raw shape
the parser produces. -/
theorem parseFloat_1234_raw :
    parseFloat "123.4" =
      some (((123 : ℕ) : ℚ) + ((4 : ℕ) : ℚ) / (10 : ℚ) ^ (1 : ℕ)) := rfl

/-- Evaluation of the float parser on the literal "123.4". -/
theorem parseFloat_1234 : parseFloat "123.4" = some (617 / 5) := by
  rw [parseFloat_1234_raw]
  norm_num

/-- The only failure resolveOne can produce is UnknownMeasurePoint for the
name it was given. -/
theorem resolveOne_error_shape (m : String) (e : PlantsError)
    (h : resolveOne m = Except.error e) :
    e = PlantsError.unknownMeasurePoint m := by
  unfold resolveOne at h
  cases hd : pyIsdigit m <;> rw [hd] at h
  · cases hr : lookupRev m <;> rw [hr] at h
    · cases h; rfl
    · cases h
  · cases h

/-- If some requested name is neither all-digits nor registered, the whole
resolution comprehension fails with UnknownMeasurePoint. -/
theorem resolveList_unknown_of_mem (l : List String) (m : String)
    (hm : m ∈ l) (hd : pyIsdigit m = false) (hr : lookupRev m = none) :
    ∃ name, resolveList l = Except.error (PlantsError.unknownMeasurePoint name) := by
  induction l with
  | nil => cases hm
  | cons x xs ih =>
    rcases List.mem_cons.mp hm with hx | hxs
    · subst hx
      exact ⟨m, by simp [resolveList, resolveOne, hd, hr]⟩
    · cases hx2 : resolveOne x with
      | error e =>
        obtain rfl := resolveOne_error_shape x e hx2
        exact ⟨x, by simp [resolveList, hx2]⟩
      | ok k =>
        obtain ⟨name, hname⟩ := ih hxs
        exact ⟨name, by simp [resolveList, hx2, hname]⟩

/-- Claim C1: calling async_get_realtime_data with a measure-point list
containing a name that is not all-digits and not a registered semantic name
fails with UnknownMeasurePoint, and the request trace is empty for every
transport: the failure happens before any transport request is issued. -/
theorem getRealtimeData_unknown_name_fails_fast
    (plant_id : String ⊕ List String) (mps : List String)
    (transport : Request → Response) (m : String)
    (hm : m ∈ mps) (hd : pyIsdigit m = false) (hr : lookupRev m = none) :
    ∃ name, async_get_realtime_data plant_id (some mps) transport =
      ([], Except.error (PlantsError.unknownMeasurePoint name)) := by
  obtain ⟨name, hname⟩ := resolveList_unknown_of_mem mps m hm hd hr
  exact ⟨name, by simp [async_get_realtime_data, resolvePoints, hname]⟩

/-- Witness for claim C1 at the concrete unresolvable name "bogus_metric". -/
theorem getRealtimeData_unknown_name_fails_fast_witness :
    ∃ name,
      async_get_realtime_data (Sum.inl "P1") (some ["bogus_metric"])
        (fun _ => { hasError := false, point_dict := [], device_point_list := [] }) =
      ([], Except.error (PlantsError.unknownMeasurePoint name)) :=
  getRealtimeData_unknown_name_fails_fast (Sum.inl "P1") ["bogus_metric"]
    (fun _ => { hasError := false, point_dict := [], device_point_list := [] })
    "bogus_metric" (List.mem_singleton.mpr rfl) (by decide) (by decide)

/-- Claim C2: when point resolution succeeds and the decoded response
carries the vendor-level error indicator, async_get_realtime_data fails
with RemoteServiceError wrapping the raw response; the result is an error,
so no reshaped RealtimeResult (not even a partial one) is produced. -/
theorem getRealtimeData_vendor_error
    (plant_id : String ⊕ List String) (mps : Option (List String))
    (transport : Request → Response) (ms : List String)
    (hres : resolvePoints mps = Except.ok ms)
    (herr : (transport
        { ps_id_list := normalizePlantId plant_id, point_id_list := ms,
          is_get_point_dict := "1" }).hasError = true) :
    async_get_realtime_data plant_id mps transport =
      ([{ ps_id_list := normalizePlantId plant_id, point_id_list := ms,
          is_get_point_dict := "1" }],
        Except.error (PlantsError.remoteServiceError (transport
          { ps_id_list := normalizePlantId plant_id, point_id_list := ms,
            is_get_point_dict := "1" }))) := by
  simp [async_get_realtime_data, hres, herr]

/-- A response whose body carries the vendor error indicator. -/
def errResponse : Response :=
  { hasError := true, point_dict := [], device_point_list := [] }

/-- Witness for claim C2 on a concrete error response. -/
theorem getRealtimeData_vendor_error_witness :
    async_get_realtime_data (Sum.inl "P1") (some ["83022"]) (fun _ => errResponse) =
      ([{ ps_id_list := ["P1"], point_id_list := ["83022"], is_get_point_dict := "1" }],
        Except.error (PlantsError.remoteServiceError errResponse)) :=
  getRealtimeData_vendor_error (Sum.inl "P1") (some ["83022"]) (fun _ => errResponse)
    ["83022"] rfl rfl

/-- A two-plant response in which P1 carries p83022 = "123.4" and P2 lacks
the p83022 field entirely. -/
def c3response : Response :=
  { hasError := false, point_dict := [],
    device_point_list :=
      [{ ps_id := "P1", fields := [("p83022", some "123.4")] },
       { ps_id := "P2", fields := [] }] }

/-- A two-plant response in which P1 carries p83022 = "123.4" and P2
carries p83022 with a null raw value. -/
def c3responseNull : Response :=
  { hasError := false, point_dict := [],
    device_point_list :=
      [{ ps_id := "P1", fields := [("p83022", some "123.4")] },
       { ps_id := "P2", fields := [("p83022", none)] }] }

/-- Counterexample to claim C3 as stated: when plant P2 lacks the p83022
field entirely, the result maps P2 to an inner map containing no
daily_yield key at all, not to a daily_yield reading with a null value. -/
theorem c3_absent_field_has_no_reading :
    ((async_get_realtime_data (Sum.inr ["P1", "P2"]) none
        (fun _ => c3response)).2.toOption.bind (fun r => dictGet r "P2")) = some [] ∧
    (((async_get_realtime_data (Sum.inr ["P1", "P2"]) none
        (fun _ => c3response)).2.toOption.bind (fun r => dictGet r "P2")).bind
      (fun inner => dictGet inner "daily_yield")) = none := by
  constructor <;> rfl

/-- Claim C3 (amended): with plant P1 carrying p83022 = "123.4" and plant
P2 carrying p83022 with a null raw value, the result maps P1 to an inner
map whose daily_yield reading has value 123.4 and P2 to one whose
daily_yield reading has value null; a plant lacking the field entirely gets
no daily_yield entry (see the counterexample). -/
theorem c3_null_field_readings :
    (((async_get_realtime_data (Sum.inr ["P1", "P2"]) none
        (fun _ => c3responseNull)).2.toOption.bind (fun r => dictGet r "P1")).bind
      (fun inner => dictGet inner "daily_yield")) =
      some { id := "83022", code := "daily_yield", value := Value.num (617 / 5),
             unit := none, name := none } ∧
    (((async_get_realtime_data (Sum.inr ["P1", "P2"]) none
        (fun _ => c3responseNull)).2.toOption.bind (fun r => dictGet r "P2")).bind
      (fun inner => dictGet inner "daily_yield")) =
      some { id := "83022", code := "daily_yield", value := Value.null,
             unit := none, name := none } := by
  have hq : ((123 : ℕ) : ℚ) + ((4 : ℕ) : ℚ) / (10 : ℚ) ^ (1 : ℕ) = 617 / 5 := by
    norm_num
  constructor
  · rw [← hq]; rfl
  · rfl

/-- Claim C4: the value of a formatted Reading is the parsed float when the
raw string parses as a float, the original string unchanged when parsing
fails, and null when the raw value is absent. -/
theorem formatMeasurePoint_value_cases (point_id : String)
    (pd : List PointInfo) (s : String) (q : ℚ) :
    (parseFloat s = some q →
      (formatMeasurePoint point_id (some s) pd).value = Value.num q) ∧
    (parseFloat s = none →
      (formatMeasurePoint point_id (some s) pd).value = Value.str s) ∧
    (formatMeasurePoint point_id none pd).value = Value.null := by
  refine ⟨fun h => ?_, fun h => ?_, rfl⟩
  · simp [formatMeasurePoint, h]
  · simp [formatMeasurePoint, h]

/-- Witness for claim C4 at the concrete raw values "123.4", "N/A" and
absent. -/
theorem formatMeasurePoint_value_cases_witness :
    (formatMeasurePoint "83022" (some "123.4") []).value = Value.num (617 / 5) ∧
    (formatMeasurePoint "83022" (some "N/A") []).value = Value.str "N/A" ∧
    (formatMeasurePoint "83022" none []).value = Value.null :=
  ⟨(formatMeasurePoint_value_cases "83022" [] "123.4" (617 / 5)).1 parseFloat_1234,
   (formatMeasurePoint_value_cases "83022" [] "N/A" 0).2.1 (by decide),
   (formatMeasurePoint_value_cases "83022" [] "N/A" 0).2.2⟩

/-- The registry round-trip checked entry by entry over the whole list. -/
theorem registry_roundtrip_all :
    (measure_points.all fun p => decide ((lookupRev p.2).map codeOf = some p.2)) = true := by
  decide

/-- Claim C5: for every registered pair (i, n), resolving the semantic name
n through the reverse map and mapping the resulting numeric id back through
codeOf yields the original name n. -/
theorem registry_roundtrip (i n : String) (h : (i, n) ∈ measure_points) :
    (lookupRev n).map codeOf = some n :=
  of_decide_eq_true (List.all_eq_true.mp registry_roundtrip_all (i, n) h)

/-- Witness for claim C5 at the registered name daily_yield. -/
theorem registry_roundtrip_witness :
    (lookupRev "daily_yield").map codeOf = some "daily_yield" :=
  registry_roundtrip "83022" "daily_yield" (by decide)

/-- Claim C6: an all-digits requested name passes through resolution
verbatim without registry lookup, and since codeOf of an unregistered id
returns the id unchanged, the reading produced for such an id is keyed by
that numeric string itself. -/
theorem numeric_passthrough (m : String) (v : Option String)
    (pd : List PointInfo) (hd : pyIsdigit m = true)
    (hreg : measure_points.find? (fun p => p.1 == m) = none) :
    resolveOne m = Except.ok m ∧ codeOf m = m ∧
      (formatMeasurePoint m v pd).code = m := by
  refine ⟨by simp [resolveOne, hd], ?_, ?_⟩
  · simp [codeOf, hreg]
  · simp [formatMeasurePoint, codeOf, hreg]

/-- Witness for claim C6 at the unregistered numeric name "83099". -/
theorem numeric_passthrough_witness :
    resolveOne "83099" = Except.ok "83099" ∧ codeOf "83099" = "83099" ∧
      (formatMeasurePoint "83099" (some "7") []).code = "83099" :=
  numeric_passthrough "83099" (some "7") [] (by decide) (by decide)

/-- Claim C7: with measurePoints = None exactly one request is issued and
its point_id_list holds precisely the numeric ids registered in the
registry: every registered id and no others. -/
theorem default_selection_all_ids (plant_id : String ⊕ List String)
    (transport : Request → Response) :
    ∃ req, (async_get_realtime_data plant_id none transport).1 = [req] ∧
      ∀ i, i ∈ req.point_id_list ↔ ∃ n, (i, n) ∈ measure_points := by
  refine ⟨{ ps_id_list := normalizePlantId plant_id,
            point_id_list := measure_points.map (fun p => p.1),
            is_get_point_dict := "1" }, rfl, fun i => ?_⟩
  constructor
  · intro hi
    obtain ⟨p, hp, hpe⟩ := List.mem_map.mp hi
    exact ⟨p.2, by rw [← hpe]; exact hp⟩
  · rintro ⟨n, hn⟩
    exact List.mem_map.mpr ⟨(i, n), hn, rfl⟩

/-- Witness for claim C7 at a concrete plant and the registered id 83022. -/
theorem default_selection_all_ids_witness :
    ∃ req,
      (async_get_realtime_data (Sum.inl "P1") none
        (fun _ => { hasError := false, point_dict := [], device_point_list := [] })).1 = [req] ∧
      ("83022" ∈ req.point_id_list ↔ ∃ n, ("83022", n) ∈ measure_points) := by
  obtain ⟨req, h1, h2⟩ := default_selection_all_ids (Sum.inl "P1")
    (fun _ => { hasError := false, point_dict := [], device_point_list := [] })
  exact ⟨req, h1, h2 "83022"⟩

/-- Counterexample to claim C8 as stated: an invocation whose point
resolution fails (here on "bogus_metric") issues zero outbound transport
requests, not exactly one. -/
theorem single_request_claim_false :
    (async_get_realtime_data (Sum.inl "P1") (some ["bogus_metric"])
      (fun _ => { hasError := false, point_dict := [], device_point_list := [] })).1 = [] := rfl

/-- Claim C8 (amended): every invocation whose point resolution succeeds
issues exactly one outbound transport request, whose ps_id_list is the
normalized plant-id list (a single plant id wrapped as a one-element list,
a list kept in order), whose point_id_list is the resolved numeric-id list,
and whose is_get_point_dict is the literal string "1"; an invocation whose
resolution fails issues none (see the counterexample). -/
theorem single_request_on_success (plant_id : String ⊕ List String)
    (mps : Option (List String)) (transport : Request → Response)
    (ms : List String) (hres : resolvePoints mps = Except.ok ms) :
    (async_get_realtime_data plant_id mps transport).1 =
      [{ ps_id_list := normalizePlantId plant_id, point_id_list := ms,
         is_get_point_dict := "1" }] := by
  simp [async_get_realtime_data, hres]

/-- Witness for claim C8 (amended) at a concrete single-plant request. -/
theorem single_request_on_success_witness :
    (async_get_realtime_data (Sum.inl "P1") (some ["daily_yield"])
      (fun _ => { hasError := false, point_dict := [], device_point_list := [] })).1 =
      [{ ps_id_list := ["P1"], point_id_list := ["83022"], is_get_point_dict := "1" }] :=
  single_request_on_success (Sum.inl "P1") (some ["daily_yield"])
    (fun _ => { hasError := false, point_dict := [], device_point_list := [] })
    ["83022"] rfl

/-- Claim C9: under result_code "1" and outer check_result "1", the
capability check returns true exactly when the first device-level
check_result is the string "1", returns false exactly when it is the string
"0", and fails with the generic PySolarCloudException for every other
device-level value: a closed tri-state string-flag convention. -/
theorem param_config_tristate (data : VerifyResponse) :
    (async_param_config_verification data = Except.ok true ↔
      data.result_code = some "1" ∧ data.check_result = "1" ∧
        data.dev_result_list.head? = some "1") ∧
    (async_param_config_verification data = Except.ok false ↔
      data.result_code = some "1" ∧ data.check_result = "1" ∧
        data.dev_result_list.head? = some "0") ∧
    (data.result_code = some "1" → data.check_result = "1" →
      ∀ s rest, data.dev_result_list = s :: rest → s ≠ "1" → s ≠ "0" →
        async_param_config_verification data =
          Except.error ControlError.pySolarCloudException) := by
  refine ⟨?_, ?_, ?_⟩
  · by_cases ha : data.result_code = some "1"
    · by_cases hb : data.check_result = "1"
      · cases hl : data.dev_result_list with
        | nil => simp [async_param_config_verification, ha, hb, hl]
        | cons s rest =>
          by_cases h1 : s = "1"
          · subst h1
            simp [async_param_config_verification, ha, hb, hl]
          · by_cases h0 : s = "0"
            · subst h0
              simp [async_param_config_verification, ha, hb, hl, h1]
            · simp [async_param_config_verification, ha, hb, hl, h1, h0]
      · simp [async_param_config_verification, ha, hb]
    · simp [async_param_config_verification, ha]
  · by_cases ha : data.result_code = some "1"
    · by_cases hb : data.check_result = "1"
      · cases hl : data.dev_result_list with
        | nil => simp [async_param_config_verification, ha, hb, hl]
        | cons s rest =>
          by_cases h1 : s = "1"
          · subst h1
            simp [async_param_config_verification, ha, hb, hl]
          · by_cases h0 : s = "0"
            · subst h0
              simp [async_param_config_verification, ha, hb, hl, h1]
            · simp [async_param_config_verification, ha, hb, hl, h1, h0]
      · simp [async_param_config_verification, ha, hb]
    · simp [async_param_config_verification, ha]
  · intro ha hb s rest hl h1 h0
    simp [async_param_config_verification, ha, hb, hl, h1, h0]

/-- Witness for claim C9 at the out-of-convention device value "2". -/
theorem param_config_tristate_witness :
    async_param_config_verification
      { result_code := some "1", check_result := "1", dev_result_list := ["2"] } =
      Except.error ControlError.pySolarCloudException :=
  (param_config_tristate
      { result_code := some "1", check_result := "1", dev_result_list := ["2"] }).2.2
    rfl rfl "2" [] rfl (by decide) (by decide)

/-- Claim C10: a reading whose numeric id has no entry in the response
point catalog is still produced (the formatter is total), with null unit
and null name. -/
theorem missing_catalog_entry (point_id : String) (v : Option String)
    (pd : List PointInfo) (h : ∀ e ∈ pd, e.point_id ≠ point_id) :
    (formatMeasurePoint point_id v pd).unit = none ∧
      (formatMeasurePoint point_id v pd).name = none := by
  have hf : pd.reverse.find? (fun p => p.point_id == point_id) = none := by
    rw [List.find?_eq_none]
    intro e he
    simpa using h e (List.mem_reverse.mp he)
  constructor <;> simp [formatMeasurePoint, hf]

/-- Witness for claim C10 at the uncataloged id "83099". -/
theorem missing_catalog_entry_witness :
    (formatMeasurePoint "83099" (some "1.5")
      [{ point_id := "83022", point_unit := some "Wh",
         point_name := some "Daily Yield" }]).unit = none ∧
    (formatMeasurePoint "83099" (some "1.5")
      [{ point_id := "83022", point_unit := some "Wh",
         point_name := some "Daily Yield" }]).name = none :=
  missing_catalog_entry "83099" (some "1.5")
    [{ point_id := "83022", point_unit := some "Wh", point_name := some "Daily Yield" }]
    (by decide)

end PySolarCloud
